import Mathlib

/-!
Shallow embedding of the MikroTik interface monitor (src/app.py).

The monitor polls per-interface byte counters, derives throughput from
successive samples, broadcasts a stats snapshot every cycle and saves to
an SQLite history table on a slower cadence.  Two socket handlers start
and stop the single background monitor thread.

Modelling conventions:
- Python floats (timestamps, rates) are modelled as rationals `ℚ`; the
  device byte counters are non-negative integers, modelled as `ℕ`.
- Python dicts keyed by interface name are association lists
  `List (String × β)` with dict-style lookup (`dictGet`) and
  replace-or-append insertion (`dictInsert`), which preserves the
  key's first-insertion position exactly as a Python dict does.
- The per-interface counter fetch (`iface_resource.get(name=iface)` plus
  the `int(...)` conversions, app.py lines 122-125) is abstracted as a
  function `String → Option (ℕ × ℕ)`; `none` covers both a raised
  exception and an empty result list (`if result:` false), which have
  the same effect on state: no counters and no previous-stats update.
- The stats dict built by `get_interface_stats` stores display strings
  (`format_speed` / `format_bytes` output); `save_to_db` re-parses their
  numeric prefixes with `float(s.split()[0])`.  We keep the raw numeric
  values in the snapshot and model the format-then-reparse round trip
  numerically (`format_speed_val`, `format_bytes_val`), so the persisted
  row holds exactly the number the source would store.
-/

/-- Python `int()` applied to a float: truncation toward zero
(app.py line 41, `bps = int(bps)`). -/
def pyTrunc (q : ℚ) : Int := if 0 ≤ q then ⌊q⌋ else ⌈q⌉

/-- Numeric effect of Python formatting with two decimal places
(`f"{val:.2f}"`) followed by `float(...)` re-parsing: rounding to a
multiple of 1/100. -/
def round2 (q : ℚ) : ℚ := (round (q * 100) : ℚ) / 100

/-- Python-dict lookup on an association list. -/
def dictGet {β : Type} (k : String) : List (String × β) → Option β
  | [] => none
  | (k', v) :: rest => if k' = k then some v else dictGet k rest

/-- Python-dict assignment `d[k] = v` on an association list: replaces the
value at an existing key in place, otherwise appends at the end. -/
def dictInsert {β : Type} (k : String) (v : β) : List (String × β) → List (String × β)
  | [] => [(k, v)]
  | (k', v') :: rest => if k' = k then (k, v) :: rest else (k', v') :: dictInsert k v rest

/-- One entry of `self.previous_stats` (app.py lines 138-142): the raw
counters and the observation timestamp of the last successful reading. -/
structure PrevStat where
  rx_bytes : Nat
  tx_bytes : Nat
  timestamp : ℚ
deriving DecidableEq

/-- One entry of the stats snapshot built per interface (app.py lines
147-153), kept in raw numeric units: speeds in bits per second, totals in
bytes.  The source stores the `format_speed`/`format_bytes` renderings of
these numbers; the numeric content is what the claims are about. -/
structure IfaceStat where
  rx_speed : ℚ
  tx_speed : ℚ
  rx_total : Nat
  tx_total : Nat
deriving DecidableEq

/-- The rate block of `get_interface_stats` (app.py lines 129-136): given
the previous-stats entry for this interface (if any) and the current
counters, compute `(rx_speed, tx_speed)`.  The source computes
`rx_bps = (cur - prev) / time_diff` and then `rx_speed = rx_bps * 8`;
no clamping of a negative delta is performed. -/
def rateFor (current_time : ℚ) (prevEntry : Option PrevStat) (rx tx : Nat) : ℚ × ℚ :=
  match prevEntry with
  | none => (0, 0)
  | some prev =>
      let time_diff := current_time - prev.timestamp
      if 0 < time_diff then
        (((rx : ℚ) - (prev.rx_bytes : ℚ)) / time_diff * 8,
         ((tx : ℚ) - (prev.tx_bytes : ℚ)) / time_diff * 8)
      else (0, 0)

/-- One iteration of the `for iface in interfaces` loop body of
`get_interface_stats` (app.py lines 117-153): returns the stats entry
written for this interface and the updated previous-stats table.
On fetch failure (`none`) the inner `except` swallows the error, the
defaults `rx_speed = tx_speed = rx_total = tx_total = 0` survive, and
`previous_stats` is not touched; on success the entry is computed and
`previous_stats[iface]` is replaced by the current reading. -/
def processIface (fetch : String → Option (Nat × Nat)) (current_time : ℚ)
    (previous_stats : List (String × PrevStat)) (iface : String) :
    IfaceStat × List (String × PrevStat) :=
  match fetch iface with
  | none => (⟨0, 0, 0, 0⟩, previous_stats)
  | some (current_rx_bytes, current_tx_bytes) =>
      let s := rateFor current_time (dictGet iface previous_stats)
        current_rx_bytes current_tx_bytes
      (⟨s.1, s.2, current_rx_bytes, current_tx_bytes⟩,
       dictInsert iface ⟨current_rx_bytes, current_tx_bytes, current_time⟩ previous_stats)

/-- The whole interface loop of `get_interface_stats`, threading the stats
dict and the previous-stats table through the interface list in order. -/
def statsLoop (fetch : String → Option (Nat × Nat)) (current_time : ℚ) :
    List String → List (String × IfaceStat) → List (String × PrevStat) →
    List (String × IfaceStat) × List (String × PrevStat)
  | [], stats, prev => (stats, prev)
  | iface :: rest, stats, prev =>
      statsLoop fetch current_time rest
        (dictInsert iface (processIface fetch current_time prev iface).1 stats)
        (processIface fetch current_time prev iface).2

/-- `MikroTikMonitor.get_interface_stats` (app.py lines 112-156):
`current_time = time.time()` is the `current_time` parameter, the device
API access is the `fetch` parameter, and `self.previous_stats` is passed
in and returned explicitly. -/
def get_interface_stats (fetch : String → Option (Nat × Nat)) (current_time : ℚ)
    (previous_stats : List (String × PrevStat)) (interfaces : List String) :
    List (String × IfaceStat) × List (String × PrevStat) :=
  statsLoop fetch current_time interfaces [] previous_stats

/-- Numeric value stored by `save_to_db` for a speed field: `format_speed`
(app.py lines 39-49) renders `int(bps)` scaled to Gbps / Mbps / plain bps,
and `save_to_db` re-parses the leading number with
`float(data[...].split()[0])` (app.py lines 163-164). -/
def format_speed_val (bps : ℚ) : ℚ :=
  if 1000000000 ≤ pyTrunc bps then round2 ((pyTrunc bps : ℚ) / 1000000000)
  else if 1000000 ≤ pyTrunc bps then round2 ((pyTrunc bps : ℚ) / 1000000)
  else (pyTrunc bps : ℚ)

/-- Numeric value stored by `save_to_db` for a totals field: `format_bytes`
(app.py lines 28-37) renders the value divided by 1024 once per unit in
B, KB, MB, GB, TB until it drops below 1024 (with a PB fallthrough), with
two decimals, and `save_to_db` re-parses the leading number (app.py lines
165-166).  The bounded five-unit loop is unrolled. -/
def format_bytes_val (value : Nat) : ℚ :=
  if (value : ℚ) < 1024 then round2 (value : ℚ)
  else if (value : ℚ) / 1024 < 1024 then round2 ((value : ℚ) / 1024)
  else if (value : ℚ) / 1024 ^ 2 < 1024 then round2 ((value : ℚ) / 1024 ^ 2)
  else if (value : ℚ) / 1024 ^ 3 < 1024 then round2 ((value : ℚ) / 1024 ^ 3)
  else if (value : ℚ) / 1024 ^ 4 < 1024 then round2 ((value : ℚ) / 1024 ^ 4)
  else round2 ((value : ℚ) / 1024 ^ 5)

/-- One row of the `performance_history` table as inserted by `save_to_db`
(app.py lines 168-173).  The timestamp column is a wall-clock string and
carries no claim content, so it is omitted. -/
structure HistoryRow where
  interface : String
  rx_speed : ℚ
  tx_speed : ℚ
  rx_total : ℚ
  tx_total : ℚ
deriving DecidableEq

/-- `MikroTikMonitor.save_to_db` (app.py lines 158-175): one row per stats
entry, each field obtained by re-parsing the formatted display string.
The `'N/A'` guard is unreachable for numeric inputs and is elided. -/
def save_to_db (stats : List (String × IfaceStat)) : List HistoryRow :=
  stats.map fun e =>
    { interface := e.1
      rx_speed := format_speed_val e.2.rx_speed
      tx_speed := format_speed_val e.2.tx_speed
      rx_total := format_bytes_val e.2.rx_total
      tx_total := format_bytes_val e.2.tx_total }

/-- The mutable state of a `MikroTikMonitor` thread that one loop iteration
of `run` touches (app.py lines 69-82): the previous-sample table, the last
database-save timestamp, the save cadence, whether `self.api` is set, and
the global `LIVE_STATS` value the loop overwrites. -/
structure MonitorState where
  previous_stats : List (String × PrevStat)
  last_db_save : ℚ
  save_interval : ℚ
  api : Bool
  live_stats : List (String × IfaceStat)
deriving DecidableEq

/-- The state of a freshly constructed `MikroTikMonitor` (app.py lines
70-82): empty previous-stats table, `last_db_save = 0`,
`save_interval = 60`, no API handle yet. -/
def MonitorState.initial : MonitorState :=
  { previous_stats := [], last_db_save := 0, save_interval := 60,
    api := false, live_stats := [] }

/-- Observable actions of one loop iteration of `MikroTikMonitor.run`:
the unconditional `socketio.emit('live_stats', ...)` broadcast and the
conditional `save_to_db` call. -/
inductive CycleEvent
  | broadcast (stats : List (String × IfaceStat))
  | db_save (stats : List (String × IfaceStat))
deriving DecidableEq

/-- One iteration of the `while self.running` loop of `MikroTikMonitor.run`
(app.py lines 177-191), minus the sleep.  The three `time.time()` readings
of a cycle are separate parameters: `t_stats` inside
`get_interface_stats`, `t_check` in the save-cadence test (line 188) and
`t_update` assigned to `last_db_save` (line 190).  The interface list
(`self.interfaces_to_monitor or self.get_all_interfaces()`, line 180) is a
parameter.  When `self.api` is unset the iteration does nothing. -/
def run_cycle (fetch : String → Option (Nat × Nat)) (interfaces : List String)
    (t_stats t_check t_update : ℚ) (st : MonitorState) :
    MonitorState × List CycleEvent :=
  if st.api then
    let r := get_interface_stats fetch t_stats st.previous_stats interfaces
    if st.save_interval ≤ t_check - st.last_db_save then
      ({ st with previous_stats := r.2, live_stats := r.1, last_db_save := t_update },
       [CycleEvent.broadcast r.1, CycleEvent.db_save r.1])
    else
      ({ st with previous_stats := r.2, live_stats := r.1 },
       [CycleEvent.broadcast r.1])
  else (st, [])

/-- The global `monitor_thread` slot as the socket handlers see it: a
thread identity, whether the thread is alive, and whether it holds an open
device connection. -/
structure ThreadInfo where
  tid : Nat
  alive : Bool
  connected : Bool
deriving DecidableEq

/-- The module-level monitor slot (`monitor_thread`, app.py line 22). -/
structure SupState where
  monitor_thread : Option ThreadInfo
deriving DecidableEq

/-- Observable actions of the two socket handlers, in program order. -/
inductive SupEvent
  | sig_stop (tid : Nat)
  | released (tid : Nat)
  | joined (tid : Nat)
  | constructed (tid : Nat)
  | started (tid : Nat)
  | emit_status (ok : Bool)
deriving DecidableEq

/-- `MikroTikMonitor.stop` (app.py lines 193-195): set `running = False`,
then `disconnect`, which releases the connection only when one is held
(`if self.connection:`, line 97). -/
def stopEvents (m : ThreadInfo) : List SupEvent :=
  SupEvent.sig_stop m.tid :: (if m.connected then [SupEvent.released m.tid] else [])

/-- `connect_mikrotik_via_socket` (app.py lines 202-223), executed under
`thread_lock`: if a live monitor thread exists it is stopped
(`stop()` = signal + release) and joined first; then the new
`MikroTikMonitor` is constructed and, if `connect()` succeeds (the
`connect_ok` parameter), started, with a success status emitted; on
connect failure an error status is emitted and the thread never starts. -/
def connect_mikrotik_via_socket (new_tid : Nat) (connect_ok : Bool) (st : SupState) :
    SupState × List SupEvent :=
  let stop_evs : List SupEvent :=
    match st.monitor_thread with
    | some m => if m.alive then stopEvents m ++ [SupEvent.joined m.tid] else []
    | none => []
  let new_evs : List SupEvent :=
    SupEvent.constructed new_tid ::
      (if connect_ok then [SupEvent.started new_tid, SupEvent.emit_status true]
       else [SupEvent.emit_status false])
  (⟨some ⟨new_tid, connect_ok, connect_ok⟩⟩, stop_evs ++ new_evs)

/-- `disconnect_mikrotik` (app.py lines 225-232), executed under
`thread_lock`: only when a live monitor thread exists does it stop, join
and emit a success status; otherwise the handler body does nothing and
emits nothing. -/
def disconnect_mikrotik (st : SupState) : SupState × List SupEvent :=
  match st.monitor_thread with
  | some m =>
      if m.alive then
        (⟨some { m with alive := false, connected := false }⟩,
         stopEvents m ++ [SupEvent.joined m.tid, SupEvent.emit_status true])
      else (st, [])
  | none => (st, [])

/-! Helper lemmas about the association-list dictionary operations. -/

theorem dictGet_dictInsert_self {β : Type} (k : String) (v : β) (l : List (String × β)) :
    dictGet k (dictInsert k v l) = some v := by
  induction l with
  | nil => simp [dictGet, dictInsert]
  | cons hd tl ih =>
      obtain ⟨k', v'⟩ := hd
      by_cases h : k' = k
      · simp [dictGet, dictInsert, h]
      · simp [dictGet, dictInsert, h, ih]

theorem dictGet_dictInsert_ne {β : Type} {j k : String} (hjk : j ≠ k) (v : β)
    (l : List (String × β)) : dictGet k (dictInsert j v l) = dictGet k l := by
  induction l with
  | nil => simp [dictGet, dictInsert, hjk]
  | cons hd tl ih =>
      obtain ⟨k', v'⟩ := hd
      by_cases h : k' = j
      · subst h
        simp [dictGet, dictInsert, hjk]
      · by_cases h2 : k' = k
        · subst h2
          simp [dictGet, dictInsert, h, Ne.symm hjk]
        · simp [dictGet, dictInsert, h, h2, ih]

/-! Helper lemmas about the interface loop of `get_interface_stats`. -/

/-- A loop iteration for interface `j` leaves the previous-stats entry of
`iface` alone when `j` is a different interface, or when `j = iface` but
its fetch failed. -/
theorem processIface_prev_get (fetch : String → Option (Nat × Nat)) (t : ℚ)
    (prev : List (String × PrevStat)) {j iface : String}
    (h : j ≠ iface ∨ fetch iface = none) :
    dictGet iface (processIface fetch t prev j).2 = dictGet iface prev := by
  by_cases hj : j = iface
  · subst hj
    rcases h with h | h
    · exact absurd rfl h
    · simp [processIface, h]
  · cases hfj : fetch j with
    | none => simp [processIface, hfj]
    | some p =>
        obtain ⟨rx, tx⟩ := p
        simp [processIface, hfj, dictGet_dictInsert_ne hj]

/-- The stats entry produced for an interface depends on the
previous-stats table only through that interface's own entry. -/
theorem processIface_fst_congr (fetch : String → Option (Nat × Nat)) (t : ℚ)
    {prev prev' : List (String × PrevStat)} (iface : String)
    (h : dictGet iface prev = dictGet iface prev') :
    (processIface fetch t prev iface).1 = (processIface fetch t prev' iface).1 := by
  cases hfj : fetch iface with
  | none => simp [processIface, hfj]
  | some p =>
      obtain ⟨rx, tx⟩ := p
      simp [processIface, hfj, h]

/-- Interfaces not in the remaining list never touch the stats entry of
`iface`. -/
theorem statsLoop_stats_untouched (fetch : String → Option (Nat × Nat)) (t : ℚ)
    (iface : String) :
    ∀ (l : List String), iface ∉ l →
      ∀ (stats : List (String × IfaceStat)) (prev : List (String × PrevStat)),
        dictGet iface (statsLoop fetch t l stats prev).1 = dictGet iface stats := by
  intro l
  induction l with
  | nil => intro _ stats prev; rfl
  | cons j rest ih =>
      intro hnotin stats prev
      have hj : j ≠ iface := fun h => hnotin (h ▸ List.mem_cons_self j rest)
      have hrest : iface ∉ rest := fun h => hnotin (List.mem_cons_of_mem j h)
      simp only [statsLoop]
      rw [ih hrest, dictGet_dictInsert_ne hj]

/-- Interfaces not in the remaining list never touch the previous-stats
entry of `iface`. -/
theorem statsLoop_prev_untouched (fetch : String → Option (Nat × Nat)) (t : ℚ)
    (iface : String) :
    ∀ (l : List String), iface ∉ l →
      ∀ (stats : List (String × IfaceStat)) (prev : List (String × PrevStat)),
        dictGet iface (statsLoop fetch t l stats prev).2 = dictGet iface prev := by
  intro l
  induction l with
  | nil => intro _ stats prev; rfl
  | cons j rest ih =>
      intro hnotin stats prev
      have hj : j ≠ iface := fun h => hnotin (h ▸ List.mem_cons_self j rest)
      have hrest : iface ∉ rest := fun h => hnotin (List.mem_cons_of_mem j h)
      simp only [statsLoop]
      rw [ih hrest, processIface_prev_get fetch t prev (Or.inl hj)]

/-- When the fetch for `iface` fails, no loop iteration (its own included)
changes its previous-stats entry. -/
theorem statsLoop_prev_of_fail (fetch : String → Option (Nat × Nat)) (t : ℚ)
    (iface : String) (hf : fetch iface = none) :
    ∀ (l : List String) (stats : List (String × IfaceStat))
      (prev : List (String × PrevStat)),
      dictGet iface (statsLoop fetch t l stats prev).2 = dictGet iface prev := by
  intro l
  induction l with
  | nil => intro stats prev; rfl
  | cons j rest ih =>
      intro stats prev
      simp only [statsLoop]
      rw [ih, processIface_prev_get fetch t prev]
      by_cases hj : j = iface
      · exact Or.inr hf
      · exact Or.inl hj

/-- When the fetch for `iface` fails, its stats entry after the loop is the
synthesized all-zero entry, provided `iface` occurs in the list (or the
zero entry was already written). -/
theorem statsLoop_stats_of_fail (fetch : String → Option (Nat × Nat)) (t : ℚ)
    (iface : String) (hf : fetch iface = none) :
    ∀ (l : List String) (stats : List (String × IfaceStat))
      (prev : List (String × PrevStat)),
      (iface ∈ l ∨ dictGet iface stats = some ⟨0, 0, 0, 0⟩) →
      dictGet iface (statsLoop fetch t l stats prev).1 = some ⟨0, 0, 0, 0⟩ := by
  intro l
  induction l with
  | nil =>
      intro stats prev h
      rcases h with h | h
      · cases h
      · exact h
  | cons j rest ih =>
      intro stats prev h
      simp only [statsLoop]
      apply ih
      by_cases hj : j = iface
      · subst hj
        right
        simp [processIface, hf, dictGet_dictInsert_self]
      · rcases h with h | h
        · rcases List.mem_cons.mp h with h2 | h2
          · exact absurd h2.symm hj
          · exact Or.inl h2
        · right
          rw [dictGet_dictInsert_ne hj]
          exact h

/-- On a duplicate-free interface list containing `iface`, the final stats
entry for `iface` is exactly what one loop iteration computes from the
original previous-stats table. -/
theorem statsLoop_stats_entry (fetch : String → Option (Nat × Nat)) (t : ℚ)
    (iface : String) :
    ∀ (l : List String), l.Nodup → iface ∈ l →
      ∀ (stats : List (String × IfaceStat)) (prev : List (String × PrevStat)),
        dictGet iface (statsLoop fetch t l stats prev).1 =
          some (processIface fetch t prev iface).1 := by
  intro l
  induction l with
  | nil => intro _ hmem; cases hmem
  | cons j rest ih =>
      intro hnd hmem stats prev
      simp only [statsLoop]
      by_cases hj : j = iface
      · subst hj
        have hnr : j ∉ rest := (List.nodup_cons.mp hnd).1
        rw [statsLoop_stats_untouched fetch t j rest hnr, dictGet_dictInsert_self]
      · have hmem' : iface ∈ rest := by
          rcases List.mem_cons.mp hmem with h2 | h2
          · exact absurd h2.symm hj
          · exact h2
        rw [ih (List.nodup_cons.mp hnd).2 hmem']
        have hpg : dictGet iface (processIface fetch t prev j).2 = dictGet iface prev :=
          processIface_prev_get fetch t prev (Or.inl hj)
        exact congrArg some (processIface_fst_congr fetch t iface hpg)

/-- On a duplicate-free interface list containing `iface`, a successful
fetch replaces the previous-stats entry of `iface` with the current
reading. -/
theorem statsLoop_prev_entry (fetch : String → Option (Nat × Nat)) (t : ℚ)
    (iface : String) (rx tx : Nat) (hf : fetch iface = some (rx, tx)) :
    ∀ (l : List String), l.Nodup → iface ∈ l →
      ∀ (stats : List (String × IfaceStat)) (prev : List (String × PrevStat)),
        dictGet iface (statsLoop fetch t l stats prev).2 = some ⟨rx, tx, t⟩ := by
  intro l
  induction l with
  | nil => intro _ hmem; cases hmem
  | cons j rest ih =>
      intro hnd hmem stats prev
      simp only [statsLoop]
      by_cases hj : j = iface
      · subst hj
        have hnr : j ∉ rest := (List.nodup_cons.mp hnd).1
        rw [statsLoop_prev_untouched fetch t j rest hnr]
        simp [processIface, hf, dictGet_dictInsert_self]
      · have hmem' : iface ∈ rest := by
          rcases List.mem_cons.mp hmem with h2 | h2
          · exact absurd h2.symm hj
          · exact h2
        exact ih (List.nodup_cons.mp hnd).2 hmem' _ _

/-! Helper lemmas about the format-then-reparse round trip. -/

/-- Rounding to two decimals is exact on whole numbers. -/
theorem round2_natCast (v : ℕ) : round2 (v : ℚ) = (v : ℚ) := by
  unfold round2
  have h : ((v : ℚ) * 100) = ((v * 100 : ℕ) : ℚ) := by push_cast; ring
  rw [h, round_natCast]
  push_cast
  field_simp

/-- Below the Mbps threshold, the stored speed value is the truncated
bits-per-second figure itself (the `f"{bps} bps"` branch). -/
theorem format_speed_val_small (bps : ℚ) (h : pyTrunc bps < 1000000) :
    format_speed_val bps = (pyTrunc bps : ℚ) := by
  unfold format_speed_val
  rw [if_neg (by omega), if_neg (not_le.mpr h)]

/-- Below 1024 bytes, the stored totals value is the raw byte count (the
`B` unit branch, exact because the count is a whole number). -/
theorem format_bytes_val_small (v : ℕ) (h : v < 1024) :
    format_bytes_val v = (v : ℚ) := by
  rw [format_bytes_val, if_pos (by exact_mod_cast h), round2_natCast]

/-! Claim C1: counter reset handling. -/

/-- C1 counterexample: with a previous reading of 1000 rx / 1000 tx bytes
at time 0 and a current reading of 0 / 0 at time 1, `get_interface_stats`
reports an rx rate of -8000 bits per second — strictly negative, not the
0 the claim requires; symmetrically for tx. -/
theorem C1_counterexample :
    Option.map IfaceStat.rx_speed
        (dictGet "eth0"
          (get_interface_stats (fun s => if s = "eth0" then some (0, 0) else none) 1
            [("eth0", ⟨1000, 1000, 0⟩)] ["eth0"]).1) = some (-8000) ∧
    Option.map IfaceStat.tx_speed
        (dictGet "eth0"
          (get_interface_stats (fun s => if s = "eth0" then some (0, 0) else none) 1
            [("eth0", ⟨1000, 1000, 0⟩)] ["eth0"]).1) = some (-8000) ∧
    ((-8000 : ℚ) < 0) := by
  refine ⟨?_, ?_, by norm_num⟩ <;>
  · rw [get_interface_stats,
      statsLoop_stats_entry (fun s => if s = "eth0" then some (0, 0) else none) 1
        "eth0" ["eth0"] (by decide) (by decide)]
    simp only [processIface, rateFor, dictGet]
    norm_num

/-- C1 (amended): when the current rx byte counter is strictly below the
previous one and the elapsed time is positive, `get_interface_stats`
reports the strictly negative rate `(current - previous) * 8 / deltaT`
for that cycle — the delta is not clamped to 0; symmetrically for tx. -/
theorem C1_theorem (fetch : String → Option (Nat × Nat)) (t : ℚ)
    (prev : List (String × PrevStat)) (interfaces : List String) (iface : String)
    (rx tx : Nat) (p : PrevStat)
    (hnd : interfaces.Nodup) (hmem : iface ∈ interfaces)
    (hf : fetch iface = some (rx, tx)) (hp : dictGet iface prev = some p)
    (hdt : 0 < t - p.timestamp)
    (hrx : rx < p.rx_bytes) (htx : tx < p.tx_bytes) :
    dictGet iface (get_interface_stats fetch t prev interfaces).1 =
      some ⟨((rx : ℚ) - (p.rx_bytes : ℚ)) * 8 / (t - p.timestamp),
            ((tx : ℚ) - (p.tx_bytes : ℚ)) * 8 / (t - p.timestamp), rx, tx⟩ ∧
    ((rx : ℚ) - (p.rx_bytes : ℚ)) * 8 / (t - p.timestamp) < 0 ∧
    ((tx : ℚ) - (p.tx_bytes : ℚ)) * 8 / (t - p.timestamp) < 0 := by
  have hr : ((rx : ℚ) - (p.rx_bytes : ℚ)) < 0 := by
    rw [sub_neg]
    exact_mod_cast hrx
  have ht2 : ((tx : ℚ) - (p.tx_bytes : ℚ)) < 0 := by
    rw [sub_neg]
    exact_mod_cast htx
  refine ⟨?_, div_neg_of_neg_of_pos (mul_neg_of_neg_of_pos hr (by norm_num)) hdt,
          div_neg_of_neg_of_pos (mul_neg_of_neg_of_pos ht2 (by norm_num)) hdt⟩
  have hdt2 : p.timestamp < t := by linarith
  rw [get_interface_stats, statsLoop_stats_entry fetch t iface interfaces hnd hmem]
  simp [processIface, hf, rateFor, hp, hdt2, div_mul_eq_mul_div]

/-- C1 witness: the amended theorem applied at the counterexample input. -/
theorem C1_witness :
    dictGet "eth0"
        (get_interface_stats (fun s => if s = "eth0" then some (0, 0) else none) 1
          [("eth0", ⟨1000, 1000, 0⟩)] ["eth0"]).1 =
      some ⟨((0 : ℚ) - (1000 : ℚ)) * 8 / (1 - 0),
            ((0 : ℚ) - (1000 : ℚ)) * 8 / (1 - 0), 0, 0⟩ :=
  (C1_theorem (fun s => if s = "eth0" then some (0, 0) else none) 1
    [("eth0", ⟨1000, 1000, 0⟩)] ["eth0"] "eth0" 0 0 ⟨1000, 1000, 0⟩
    (by decide) (by decide) (by decide) (by decide) (by norm_num)
    (by norm_num) (by norm_num)).1

/-! Claim C2: fetch failure and the snapshot. -/

/-- C2 counterexample: when the fetch for `eth1` fails and `eth0`, `eth2`
succeed, `eth1` is NOT absent from the snapshot — it appears with a
synthesized all-zero entry, indistinguishable from zero traffic. -/
theorem C2_counterexample :
    dictGet "eth1"
        (get_interface_stats
          (fun s => if s = "eth1" then none else some (100, 200)) 1 []
          ["eth0", "eth1", "eth2"]).1 = some ⟨0, 0, 0, 0⟩ ∧
    dictGet "eth0"
        (get_interface_stats
          (fun s => if s = "eth1" then none else some (100, 200)) 1 []
          ["eth0", "eth1", "eth2"]).1 = some ⟨0, 0, 100, 200⟩ := by
  constructor <;> decide

/-- C2 (amended): an interface whose counter fetch fails in a cycle is
still present in that cycle's stats snapshot, with a synthesized all-zero
entry (zero rates and zero totals) — the `stats[iface] = ...` assignment
sits outside the per-interface exception handler, so a fetch failure is
reported exactly like zero traffic on an idle interface. -/
theorem C2_theorem (fetch : String → Option (Nat × Nat)) (t : ℚ)
    (prev : List (String × PrevStat)) (interfaces : List String) (iface : String)
    (hmem : iface ∈ interfaces) (hf : fetch iface = none) :
    dictGet iface (get_interface_stats fetch t prev interfaces).1 =
      some ⟨0, 0, 0, 0⟩ := by
  rw [get_interface_stats]
  exact statsLoop_stats_of_fail fetch t iface hf interfaces [] prev (Or.inl hmem)

/-- C2 witness: the amended theorem applied at the counterexample input. -/
theorem C2_witness :
    dictGet "eth1"
        (get_interface_stats
          (fun s => if s = "eth1" then none else some (100, 200)) 1 []
          ["eth0", "eth1", "eth2"]).1 = some ⟨0, 0, 0, 0⟩ :=
  C2_theorem (fun s => if s = "eth1" then none else some (100, 200)) 1 []
    ["eth0", "eth1", "eth2"] "eth1" (by decide) (by decide)

/-! Claim C3: persisted values versus raw SI units. -/

/-- C3 counterexample: a snapshot entry with an rx rate of 2000000 bits
per second and an rx total of 2048 bytes is persisted as `rx_speed = 2`
(the Mbps display figure) and `rx_total = 2` (the KB display figure) —
not the raw values 2000000 and 2048. -/
theorem C3_counterexample :
    save_to_db [("eth0", ⟨2000000, 0, 2048, 0⟩)] = [⟨"eth0", 2, 0, 2, 0⟩] ∧
    ((2 : ℚ) ≠ 2000000 ∧ (2 : ℚ) ≠ 2048) := by
  refine ⟨?_, by norm_num, by norm_num⟩
  have hs : format_speed_val 2000000 = 2 := by
    norm_num [format_speed_val, pyTrunc, round2, round_eq]
  have hz : format_speed_val 0 = 0 := by
    norm_num [format_speed_val, pyTrunc]
  have hb : format_bytes_val 2048 = 2 := by
    norm_num [format_bytes_val, round2, round_eq]
  have hb0 : format_bytes_val 0 = 0 := by
    norm_num [format_bytes_val, round2, round_eq]
  simp [save_to_db, hs, hz, hb, hb0]

/-- C3 (amended): the persisted fields are the numeric prefixes of the
unit-formatted display strings, re-parsed by `save_to_db`; they equal the
raw values only in the unscaled branches — a speed whose integer
truncation is below 1000000 is stored as that truncated bits-per-second
figure, and a byte total below 1024 is stored as the raw byte count. -/
theorem C3_theorem (name : String) (e : IfaceStat)
    (h1 : pyTrunc e.rx_speed < 1000000) (h2 : pyTrunc e.tx_speed < 1000000)
    (h3 : e.rx_total < 1024) (h4 : e.tx_total < 1024) :
    save_to_db [(name, e)] =
      [⟨name, (pyTrunc e.rx_speed : ℚ), (pyTrunc e.tx_speed : ℚ),
        (e.rx_total : ℚ), (e.tx_total : ℚ)⟩] := by
  simp [save_to_db, format_speed_val_small _ h1, format_speed_val_small _ h2,
        format_bytes_val_small _ h3, format_bytes_val_small _ h4]

/-- C3 witness: the amended theorem at a concrete below-threshold entry. -/
theorem C3_witness :
    save_to_db [("eth0", ⟨999, -5, 100, 0⟩)] = [⟨"eth0", 999, -5, 100, 0⟩] := by
  have h := C3_theorem "eth0" ⟨999, -5, 100, 0⟩ (by decide) (by decide)
    (by decide) (by decide)
  rw [h]
  decide

/-! Claim C4: the normal rate formula. -/

/-- C4: for successive samples of the same interface with a non-decreasing
counter and positive elapsed time, `get_interface_stats` reports exactly
`(current - previous) * 8 / deltaT` bits per second, for rx and tx alike. -/
theorem C4_theorem (fetch : String → Option (Nat × Nat)) (t : ℚ)
    (prev : List (String × PrevStat)) (interfaces : List String) (iface : String)
    (rx tx : Nat) (p : PrevStat)
    (hnd : interfaces.Nodup) (hmem : iface ∈ interfaces)
    (hf : fetch iface = some (rx, tx)) (hp : dictGet iface prev = some p)
    (hdt : 0 < t - p.timestamp)
    (hrx : p.rx_bytes ≤ rx) (htx : p.tx_bytes ≤ tx) :
    dictGet iface (get_interface_stats fetch t prev interfaces).1 =
      some ⟨((rx : ℚ) - (p.rx_bytes : ℚ)) * 8 / (t - p.timestamp),
            ((tx : ℚ) - (p.tx_bytes : ℚ)) * 8 / (t - p.timestamp), rx, tx⟩ := by
  have hdt2 : p.timestamp < t := by linarith
  rw [get_interface_stats, statsLoop_stats_entry fetch t iface interfaces hnd hmem]
  simp [processIface, hf, rateFor, hp, hdt2, div_mul_eq_mul_div]

/-- C4 witness: previous reading 400/400 bytes at time 0, current reading
1000/2000 bytes at time 2, giving (1000-400)*8/2 = 2400 rx bits per second
and (2000-400)*8/2 = 6400 tx bits per second. -/
theorem C4_witness :
    dictGet "eth0"
        (get_interface_stats (fun s => if s = "eth0" then some (1000, 2000) else none) 2
          [("eth0", ⟨400, 400, 0⟩)] ["eth0"]).1 =
      some ⟨2400, 6400, 1000, 2000⟩ := by
  have h := C4_theorem (fun s => if s = "eth0" then some (1000, 2000) else none) 2
    [("eth0", ⟨400, 400, 0⟩)] ["eth0"] "eth0" 1000 2000 ⟨400, 400, 0⟩
    (by decide) (by decide) (by decide) (by decide) (by norm_num)
    (by norm_num) (by norm_num)
  rw [h]
  norm_num

/-! Claim C5: non-positive elapsed time. -/

/-- C5: when the elapsed time between the previous and the current
observation is not positive, the rate branch is skipped entirely and the
reported rates are (0, 0) — no division happens, so clock anomalies never
produce infinite or negative rates. -/
theorem C5_theorem (fetch : String → Option (Nat × Nat)) (t : ℚ)
    (prev : List (String × PrevStat)) (interfaces : List String) (iface : String)
    (rx tx : Nat) (p : PrevStat)
    (hnd : interfaces.Nodup) (hmem : iface ∈ interfaces)
    (hf : fetch iface = some (rx, tx)) (hp : dictGet iface prev = some p)
    (hdt : t - p.timestamp ≤ 0) :
    dictGet iface (get_interface_stats fetch t prev interfaces).1 =
      some ⟨0, 0, rx, tx⟩ := by
  have hdt2 : ¬ p.timestamp < t := by linarith
  rw [get_interface_stats, statsLoop_stats_entry fetch t iface interfaces hnd hmem]
  simp [processIface, hf, rateFor, hp, hdt2]

/-- C5 witness: a current sample timestamped 1 against a previous sample
timestamped 3 (clock went backwards) yields rates (0, 0). -/
theorem C5_witness :
    dictGet "eth0"
        (get_interface_stats (fun s => if s = "eth0" then some (1000, 2000) else none) 1
          [("eth0", ⟨400, 400, 3⟩)] ["eth0"]).1 =
      some ⟨0, 0, 1000, 2000⟩ :=
  C5_theorem (fun s => if s = "eth0" then some (1000, 2000) else none) 1
    [("eth0", ⟨400, 400, 3⟩)] ["eth0"] "eth0" 1000 2000 ⟨400, 400, 3⟩
    (by decide) (by decide) (by decide) (by decide) (by norm_num)

/-! Claim C6: the first observation of an interface. -/

/-- C6: an interface with no previous-stats entry reports (0, 0) on its
first successful observation, and that observation is inserted into the
previous-stats table as the baseline for the next cycle. -/
theorem C6_theorem (fetch : String → Option (Nat × Nat)) (t : ℚ)
    (prev : List (String × PrevStat)) (interfaces : List String) (iface : String)
    (rx tx : Nat)
    (hnd : interfaces.Nodup) (hmem : iface ∈ interfaces)
    (hf : fetch iface = some (rx, tx)) (hp : dictGet iface prev = none) :
    dictGet iface (get_interface_stats fetch t prev interfaces).1 =
      some ⟨0, 0, rx, tx⟩ ∧
    dictGet iface (get_interface_stats fetch t prev interfaces).2 =
      some ⟨rx, tx, t⟩ := by
  constructor
  · rw [get_interface_stats, statsLoop_stats_entry fetch t iface interfaces hnd hmem]
    simp [processIface, hf, rateFor, hp]
  · rw [get_interface_stats]
    exact statsLoop_prev_entry fetch t iface rx tx hf interfaces hnd hmem [] prev

/-- C6 witness: first observation of `eth0` at time 7 with counters
500/600 yields rates (0, 0) and baseline entry (500, 600, 7). -/
theorem C6_witness :
    dictGet "eth0"
        (get_interface_stats (fun s => if s = "eth0" then some (500, 600) else none) 7
          [] ["eth0"]).1 = some ⟨0, 0, 500, 600⟩ ∧
    dictGet "eth0"
        (get_interface_stats (fun s => if s = "eth0" then some (500, 600) else none) 7
          [] ["eth0"]).2 = some ⟨500, 600, 7⟩ :=
  C6_theorem (fun s => if s = "eth0" then some (500, 600) else none) 7
    [] ["eth0"] "eth0" 500 600 (by decide) (by decide) (by decide) (by decide)

/-! Claim C10: fetch failure leaves the baseline untouched. -/

/-- C10: when an interface's counter fetch fails in a cycle, its entry in
the previous-stats table after `get_interface_stats` is exactly what it
was before — only successfully fetched interfaces get their entry
replaced, so the next successful cycle still has its old baseline. -/
theorem C10_theorem (fetch : String → Option (Nat × Nat)) (t : ℚ)
    (prev : List (String × PrevStat)) (interfaces : List String) (iface : String)
    (hf : fetch iface = none) :
    dictGet iface (get_interface_stats fetch t prev interfaces).2 =
      dictGet iface prev := by
  rw [get_interface_stats]
  exact statsLoop_prev_of_fail fetch t iface hf interfaces [] prev

/-- C10 witness: `eth1` fails to fetch while `eth0` succeeds; `eth1`'s
baseline from time 0 survives the cycle unchanged. -/
theorem C10_witness :
    dictGet "eth1"
        (get_interface_stats (fun s => if s = "eth1" then none else some (9, 9)) 5
          [("eth1", ⟨123, 456, 0⟩)] ["eth0", "eth1"]).2 =
      dictGet "eth1" [("eth1", (⟨123, 456, 0⟩ : PrevStat))] :=
  C10_theorem (fun s => if s = "eth1" then none else some (9, 9)) 5
    [("eth1", ⟨123, 456, 0⟩)] ["eth0", "eth1"] "eth1" (by decide)

/-! Claim C7: stop with no active session. -/

/-- C7 counterexample: `disconnect_mikrotik` on an idle state (no monitor
thread) leaves the state unchanged but emits NOTHING — in particular no
success status is reported, contrary to the claim. -/
theorem C7_counterexample :
    disconnect_mikrotik ⟨none⟩ = (⟨none⟩, []) ∧
    SupEvent.emit_status true ∉ (disconnect_mikrotik ⟨none⟩).2 := by
  constructor
  · rfl
  · intro h
    simp [disconnect_mikrotik] at h

/-- C7 (amended): calling stop when no monitor session is active (no
thread, or a thread that is not alive) is a no-op that leaves all state
unchanged and emits no status message at all — it is not an error, but no
success is reported either. -/
theorem C7_theorem (st : SupState)
    (h : ∀ m, st.monitor_thread = some m → m.alive = false) :
    disconnect_mikrotik st = (st, []) := by
  match hm : st.monitor_thread with
  | none => simp [disconnect_mikrotik, hm]
  | some m =>
      have ha : m.alive = false := h m hm
      simp [disconnect_mikrotik, hm, ha]

/-- C7 witness: the amended theorem on a state holding a dead thread. -/
theorem C7_witness :
    disconnect_mikrotik ⟨some ⟨0, false, false⟩⟩ = (⟨some ⟨0, false, false⟩⟩, []) :=
  C7_theorem ⟨some ⟨0, false, false⟩⟩ (by
    intro m hm
    simp only [Option.some.injEq] at hm
    rw [← hm])

/-! Claim C8: start replaces a running session. -/

/-- C8: a start request arriving while a live session exists first signals
stop, releases the device connection and joins the old thread — all before
the new monitor is constructed and started — and afterwards the monitor
slot holds exactly the new thread, so at most one live loop ever holds a
device handle. -/
theorem C8_theorem (st : SupState) (m : ThreadInfo) (new_tid : Nat) (connect_ok : Bool)
    (hm : st.monitor_thread = some m) (ha : m.alive = true) (hc : m.connected = true) :
    connect_mikrotik_via_socket new_tid connect_ok st =
      (⟨some ⟨new_tid, connect_ok, connect_ok⟩⟩,
       [SupEvent.sig_stop m.tid, SupEvent.released m.tid, SupEvent.joined m.tid,
        SupEvent.constructed new_tid] ++
         (if connect_ok then [SupEvent.started new_tid, SupEvent.emit_status true]
          else [SupEvent.emit_status false])) := by
  simp [connect_mikrotik_via_socket, hm, ha, hc, stopEvents]

/-- C8 witness: replacing live connected thread 1 with thread 2 whose
connect succeeds. -/
theorem C8_witness :
    connect_mikrotik_via_socket 2 true ⟨some ⟨1, true, true⟩⟩ =
      (⟨some ⟨2, true, true⟩⟩,
       [SupEvent.sig_stop 1, SupEvent.released 1, SupEvent.joined 1,
        SupEvent.constructed 2, SupEvent.started 2, SupEvent.emit_status true]) := by
  have h := C8_theorem ⟨some ⟨1, true, true⟩⟩ ⟨1, true, true⟩ 2 true rfl rfl rfl
  rw [h]
  rfl

/-! Claim C9: cycle ordering of broadcast and persistence. -/

/-- C9: in every poll cycle with an API handle, the snapshot is broadcast
unconditionally; the cycle saves to the database exactly when
`t_check - last_db_save >= save_interval` (60 on a fresh monitor), the
save event comes after the broadcast of the same cycle's snapshot, and
`last_db_save` is updated exactly when a save happens. -/
theorem C9_theorem (fetch : String → Option (Nat × Nat)) (interfaces : List String)
    (t_stats t_check t_update : ℚ) (st : MonitorState) (hapi : st.api = true) :
    (run_cycle fetch interfaces t_stats t_check t_update st).2 =
      CycleEvent.broadcast (get_interface_stats fetch t_stats st.previous_stats interfaces).1 ::
        (if st.save_interval ≤ t_check - st.last_db_save then
          [CycleEvent.db_save (get_interface_stats fetch t_stats st.previous_stats interfaces).1]
        else []) ∧
    (run_cycle fetch interfaces t_stats t_check t_update st).1.last_db_save =
      (if st.save_interval ≤ t_check - st.last_db_save then t_update
       else st.last_db_save) ∧
    MonitorState.initial.save_interval = 60 := by
  refine ⟨?_, ?_, rfl⟩ <;>
  · by_cases hcond : st.save_interval ≤ t_check - st.last_db_save <;>
      simp [run_cycle, hapi, hcond]

/-- C9 witness: a fresh monitor with the API handle set, checked at time
60, broadcasts its (empty) snapshot and then saves, updating
`last_db_save` to the post-save clock reading 61. -/
theorem C9_witness :
    (run_cycle (fun _ => none) [] 60 60 61
        { MonitorState.initial with api := true }).2 =
      CycleEvent.broadcast [] :: [CycleEvent.db_save []] ∧
    (run_cycle (fun _ => none) [] 60 60 61
        { MonitorState.initial with api := true }).1.last_db_save = 61 := by
  have h := C9_theorem (fun _ => none) [] 60 60 61
    { MonitorState.initial with api := true } rfl
  obtain ⟨h1, h2, -⟩ := h
  constructor
  · rw [h1]
    norm_num [MonitorState.initial, get_interface_stats, statsLoop]
  · rw [h2]
    norm_num [MonitorState.initial]
